import Mathlib

/-!
Verification of the session-management core declared in
`libs/Microsoft.MixedReality.WebRTC.Native/src/peer_connection.h`
(`mrtk::net::webrtc_impl::PeerConnection`).

The header contains the full declarations and several inline member
bodies (the four callback-registration members, the four
video-frame-callback registration members, and the empty `OnFailure`
override); those are embedded here directly from the source.  The
out-of-line member bodies (`addDataChannel`, `removeDataChannel`,
`sendDataChannelMessage`, `addLocalVideoTrack`, `addLocalAudioTrack`,
`OnDataChannel`) are not part of the header; each such definition is
modelled from the specification and carries a doc comment saying so.

Handlers, tracks, senders and engine handles are identified by opaque
numeric tokens (`Nat`); payload bytes are `List Nat`.  The two
data-channel indexes (`std::unordered_map<int, ...>` and
`std::unordered_multimap<std::string, ...>`) are embedded as
association lists keyed by `Int` and `String` respectively.
-/

namespace PeerConn

/-- One data-channel observer entry, as created by `addDataChannel`:
the numeric id, the (possibly empty) label, the reliability options,
and the three consumer callbacks wrapped with the channel. -/
structure DataChannelObserver where
  id : Int
  label : String
  ordered : Bool
  reliable : Bool
  message_callback : Nat
  buffering_callback : Nat
  state_callback : Nat
deriving DecidableEq

/-- A video frame observer binding (`VideoFrameObserver`), holding the
two frame-callback slots that `setCallback` swaps in.  The observer
class itself is outside the header; the slot-swap behaviour is
modelled from the spec sentence that installing a handler replaces an
existing one. -/
structure VideoFrameObserver where
  i420_callback : Option Nat
  argb_callback : Option Nat
deriving DecidableEq

/-- The `PeerConnection` state: the engine connection handle `peer_`,
the four callback slots, the local track/sender bindings, the remote
stream set, the dual-index data-channel registry
(`data_channel_from_id_`, `data_channel_from_label_`) and the two
video frame observer bindings. -/
structure Session where
  peer : Option Nat
  connected_callback : Option Nat
  local_sdp_ready_to_send_callback : Option Nat
  ice_candidate_ready_to_send_callback : Option Nat
  renegotiation_needed_callback : Option Nat
  local_video_track : Option Nat
  local_audio_track : Option Nat
  local_video_sender : Option Nat
  local_audio_sender : Option Nat
  remote_streams : List Nat
  data_channel_from_id : List (Int × DataChannelObserver)
  data_channel_from_label : List (String × DataChannelObserver)
  local_video_observer : Option VideoFrameObserver
  remote_video_observer : Option VideoFrameObserver
deriving DecidableEq

/-- The freshly constructed `PeerConnection()`: every binding empty. -/
def Session.init : Session :=
  ⟨none, none, none, none, none, none, none, none, none, [], [], [], none, none⟩

/-- Lookup in the id index, the embedding of
`data_channel_from_id_.find(id)`. -/
def lookupId (m : List (Int × DataChannelObserver)) (id : Int) :
    Option DataChannelObserver :=
  (m.find? (fun p => decide (p.1 = id))).map Prod.snd

/-- Embedded from the inline body of `registerConnectedCallback`:
`connected_callback_ = std::move(callback);` (the lock only guards the
assignment). -/
def registerConnectedCallback (s : Session) (cb : Nat) : Session :=
  { s with connected_callback := some cb }

/-- Embedded from the inline body of
`registerLocalSdpReadytoSendCallback`: plain slot assignment. -/
def registerLocalSdpReadytoSendCallback (s : Session) (cb : Nat) : Session :=
  { s with local_sdp_ready_to_send_callback := some cb }

/-- Embedded from the inline body of
`registerIceCandidateReadytoSendCallback`: plain slot assignment. -/
def registerIceCandidateReadytoSendCallback (s : Session) (cb : Nat) : Session :=
  { s with ice_candidate_ready_to_send_callback := some cb }

/-- Embedded from the inline body of
`registerRenegotiationNeededCallback`: plain slot assignment. -/
def registerRenegotiationNeededCallback (s : Session) (cb : Nat) : Session :=
  { s with renegotiation_needed_callback := some cb }

/-- Invoking a callback slot: the handler, if any, is copied out and
called exactly once.  Returns the list of handlers invoked (modelled
from the spec: the adapter copies the handler out under the lock and
calls it once). -/
def invokeSlot (slot : Option Nat) : List Nat :=
  match slot with
  | some h => [h]
  | none => []

/-- Handlers invoked when the connected event fires. -/
def fireConnected (s : Session) : List Nat :=
  invokeSlot s.connected_callback

/-- Handlers invoked when a local description becomes ready. -/
def fireLocalSdpReady (s : Session) : List Nat :=
  invokeSlot s.local_sdp_ready_to_send_callback

/-- Handlers invoked when a local ICE candidate is gathered. -/
def fireIceCandidateReady (s : Session) : List Nat :=
  invokeSlot s.ice_candidate_ready_to_send_callback

/-- Handlers invoked when renegotiation is needed. -/
def fireRenegotiationNeeded (s : Session) : List Nat :=
  invokeSlot s.renegotiation_needed_callback

/-- Embedded from the inline body of the I420 overload of
`registerLocalVideoFrameCallback`: if `local_video_observer_` is set,
forward the callback to `setCallback`, otherwise do nothing. -/
def registerLocalVideoFrameCallbackI420 (s : Session) (cb : Nat) : Session :=
  match s.local_video_observer with
  | some obs => { s with local_video_observer := some { obs with i420_callback := some cb } }
  | none => s

/-- Embedded from the inline body of the ARGB overload of
`registerLocalVideoFrameCallback`. -/
def registerLocalVideoFrameCallbackARGB (s : Session) (cb : Nat) : Session :=
  match s.local_video_observer with
  | some obs => { s with local_video_observer := some { obs with argb_callback := some cb } }
  | none => s

/-- Embedded from the inline body of the I420 overload of
`registerRemoteVideoFrameCallback`. -/
def registerRemoteVideoFrameCallbackI420 (s : Session) (cb : Nat) : Session :=
  match s.remote_video_observer with
  | some obs => { s with remote_video_observer := some { obs with i420_callback := some cb } }
  | none => s

/-- Embedded from the inline body of the ARGB overload of
`registerRemoteVideoFrameCallback`. -/
def registerRemoteVideoFrameCallbackARGB (s : Session) (cb : Nat) : Session :=
  match s.remote_video_observer with
  | some obs => { s with remote_video_observer := some { obs with argb_callback := some cb } }
  | none => s

/-- Embedded from the inline body of `OnFailure` in the header:
`void OnFailure(webrtc::RTCError error) noexcept override {}` — the
default failure handler has an empty body.  Returns the (unchanged)
state and the list of consumer callbacks invoked (none). -/
def onFailure (s : Session) (_error : Nat) : Session × List Nat :=
  (s, [])

/-- Modelled from the spec: the body of `addDataChannel` is not in the
header.  Per the spec it asks the engine for a channel, wraps it in an
observer, and indexes it by id and, if the label is non-empty, by
label; both indexes are updated together; it fails if the id is
already indexed. -/
def addDataChannel (s : Session) (id : Int) (label : String)
    (ordered reliable : Bool) (mcb bcb scb : Nat) : Bool × Session :=
  if (lookupId s.data_channel_from_id id).isSome then (false, s)
  else
    let e : DataChannelObserver := ⟨id, label, ordered, reliable, mcb, bcb, scb⟩
    (true,
      { s with
        data_channel_from_id := (id, e) :: s.data_channel_from_id
        data_channel_from_label :=
          if label = "" then s.data_channel_from_label
          else (label, e) :: s.data_channel_from_label })

/-- Modelled from the spec: the body of `removeDataChannel(int)` is
not in the header.  Per the spec it removes and closes the entry with
that id from both indexes, and is a no-op (not an error) when nothing
matches. -/
def removeDataChannelById (s : Session) (id : Int) : Bool × Session :=
  (true,
    { s with
      data_channel_from_id :=
        s.data_channel_from_id.filter (fun p => decide (p.1 ≠ id))
      data_channel_from_label :=
        s.data_channel_from_label.filter (fun p => decide (p.2.id ≠ id)) })

/-- Modelled from the spec: the body of `removeDataChannel(const
char*)` is not in the header.  Per the spec it removes every entry
sharing the label from both indexes; matching goes through the label
index, which excludes empty labels, so removal by the empty label
matches nothing; a no-match removal is a no-op, not an error. -/
def removeDataChannelByLabel (s : Session) (label : String) : Bool × Session :=
  if label = "" then (true, s)
  else
    (true,
      { s with
        data_channel_from_id :=
          s.data_channel_from_id.filter (fun p => decide (p.2.label ≠ label))
        data_channel_from_label :=
          s.data_channel_from_label.filter (fun p => decide (p.1 ≠ label)) })

/-- Modelled from the spec: the body of `sendDataChannelMessage` is
not in the header.  Per the spec it looks the channel up by id and
forwards the payload to the engine, failing when no channel with that
id exists or the engine reports a send failure.  `engineSend` stands
for the engine; the third component lists the engine calls made. -/
def sendDataChannelMessage (engineSend : DataChannelObserver → List Nat → Bool)
    (s : Session) (id : Int) (data : List Nat) :
    Bool × Session × List (DataChannelObserver × List Nat) :=
  match lookupId s.data_channel_from_id id with
  | none => (false, s, [])
  | some e => (engineSend e data, s, [(e, data)])

/-- Modelled from the spec: the body of `OnDataChannel` (remote peer
opened a data channel) is not in the header.  Per the spec the new
channel is wrapped and indexed, mirroring `addDataChannel`. -/
def onDataChannel (s : Session) (e : DataChannelObserver) : Session :=
  if (lookupId s.data_channel_from_id e.id).isSome then s
  else
    { s with
      data_channel_from_id := (e.id, e) :: s.data_channel_from_id
      data_channel_from_label :=
        if e.label = "" then s.data_channel_from_label
        else (e.label, e) :: s.data_channel_from_label }

/-- Modelled from the spec: the body of `addLocalVideoTrack` is not in
the header.  Per the spec it attaches the track and stores the sender
the engine returns, failing when a video track is already attached or
the connection is not yet set.  `engineSender` stands for the engine
side of `AddTrack`. -/
def addLocalVideoTrack (engineSender : Nat → Nat) (s : Session)
    (track : Nat) : Bool × Session :=
  if s.local_video_track.isSome then (false, s)
  else
    match s.peer with
    | none => (false, s)
    | some _ =>
      (true,
        { s with
          local_video_track := some track
          local_video_sender := some (engineSender track) })

/-- Modelled from the spec: `addLocalAudioTrack`, symmetric to
`addLocalVideoTrack` for audio. -/
def addLocalAudioTrack (engineSender : Nat → Nat) (s : Session)
    (track : Nat) : Bool × Session :=
  if s.local_audio_track.isSome then (false, s)
  else
    match s.peer with
    | none => (false, s)
    | some _ =>
      (true,
        { s with
          local_audio_track := some track
          local_audio_sender := some (engineSender track) })

/-- The data-channel registry invariant: id keys are unique, every id
key equals its entry's id, every label key equals its entry's label,
and the label index holds exactly the id-index entries whose label is
non-empty (same entries, same order). -/
def RegistryInv (s : Session) : Prop :=
  (s.data_channel_from_id.map Prod.fst).Nodup
  ∧ (∀ p ∈ s.data_channel_from_id, p.1 = p.2.id)
  ∧ (∀ q ∈ s.data_channel_from_label, q.1 = q.2.label)
  ∧ s.data_channel_from_label.map Prod.snd
      = (s.data_channel_from_id.map Prod.snd).filter (fun e => decide (e.label ≠ ""))

instance (s : Session) : Decidable (RegistryInv s) := by
  unfold RegistryInv
  infer_instance

/-! ### Helper lemmas about the registry lists -/

theorem lookupId_eq_none_iff (m : List (Int × DataChannelObserver)) (id : Int) :
    lookupId m id = none ↔ ∀ p ∈ m, p.1 ≠ id := by
  simp [lookupId, List.find?_eq_none]

theorem lookupId_cons_self (m : List (Int × DataChannelObserver)) (id : Int)
    (e : DataChannelObserver) : lookupId ((id, e) :: m) id = some e := by
  simp [lookupId, List.find?_cons_of_pos]

theorem lookupId_filter_ne (m : List (Int × DataChannelObserver)) (id : Int) :
    lookupId (m.filter (fun p => decide (p.1 ≠ id))) id = none := by
  rw [lookupId_eq_none_iff]
  intro p hp
  have h := (List.mem_filter.1 hp).2
  exact of_decide_eq_true h

theorem map_snd_filter_snd {α β : Type} (l : List (α × β)) (q : β → Bool) :
    (l.filter (fun p => q p.2)).map Prod.snd = (l.map Prod.snd).filter q := by
  induction l with
  | nil => rfl
  | cons a t ih =>
    by_cases h : q a.2
    · simp [List.filter_cons, h, ih]
    · simp [List.filter_cons, h, ih]

/-! ### Sample states used by the witness theorems -/

/-- A sample registered data channel (id 5, label "chat"). -/
def chatObs : DataChannelObserver := ⟨5, "chat", true, true, 1, 2, 3⟩

/-- A session whose registry holds exactly `chatObs`. -/
def chatSession : Session :=
  { Session.init with
    data_channel_from_id := [(5, chatObs)]
    data_channel_from_label := [("chat", chatObs)] }

/-! ### Claim theorems -/

/-- C7: when asynchronous session-description creation fails and the
consumer has not overridden the failure handler, the default
`OnFailure` does nothing: no consumer callback is invoked and the
session state is unchanged, so the consumer gets no notification of
the negotiation failure. -/
theorem onFailure_default_silent (s : Session) (e : Nat) :
    onFailure s e = (s, []) := rfl

/-- C6: for each of the four callback slots, registering handler X and
then handler Y leaves the slot holding exactly Y, and the next
matching event invokes exactly Y once (so X is never invoked when it
differs from Y): registration is last-writer-wins, not additive. -/
theorem register_callback_last_writer_wins (s : Session) (x y : Nat) :
    (registerConnectedCallback (registerConnectedCallback s x) y).connected_callback = some y
  ∧ fireConnected (registerConnectedCallback (registerConnectedCallback s x) y) = [y]
  ∧ (registerLocalSdpReadytoSendCallback (registerLocalSdpReadytoSendCallback s x) y).local_sdp_ready_to_send_callback = some y
  ∧ fireLocalSdpReady (registerLocalSdpReadytoSendCallback (registerLocalSdpReadytoSendCallback s x) y) = [y]
  ∧ (registerIceCandidateReadytoSendCallback (registerIceCandidateReadytoSendCallback s x) y).ice_candidate_ready_to_send_callback = some y
  ∧ fireIceCandidateReady (registerIceCandidateReadytoSendCallback (registerIceCandidateReadytoSendCallback s x) y) = [y]
  ∧ (registerRenegotiationNeededCallback (registerRenegotiationNeededCallback s x) y).renegotiation_needed_callback = some y
  ∧ fireRenegotiationNeeded (registerRenegotiationNeededCallback (registerRenegotiationNeededCallback s x) y) = [y] :=
  ⟨rfl, rfl, rfl, rfl, rfl, rfl, rfl, rfl⟩

/-- C10: each frame-callback registration overload, whenever its own
corresponding video frame observer binding is absent (regardless of
the other binding), silently discards the supplied callback and leaves
the whole session state unchanged. -/
theorem registerVideoFrameCallback_no_observer (s : Session) (cb : Nat) :
    (s.local_video_observer = none →
      registerLocalVideoFrameCallbackI420 s cb = s
    ∧ registerLocalVideoFrameCallbackARGB s cb = s)
  ∧ (s.remote_video_observer = none →
      registerRemoteVideoFrameCallbackI420 s cb = s
    ∧ registerRemoteVideoFrameCallbackARGB s cb = s) := by
  constructor
  · intro hl
    refine ⟨?_, ?_⟩ <;>
      simp [registerLocalVideoFrameCallbackI420,
        registerLocalVideoFrameCallbackARGB, hl]
  · intro hr
    refine ⟨?_, ?_⟩ <;>
      simp [registerRemoteVideoFrameCallbackI420,
        registerRemoteVideoFrameCallbackARGB, hr]

/-- A session whose remote video observer binding is present while the
local one is absent. -/
def remoteObsSession : Session :=
  { Session.init with remote_video_observer := some ⟨none, none⟩ }

/-- Witness for C10: on a session with only the remote observer bound,
registering a local frame callback is a silent no-op, and on the fresh
session registering a remote frame callback is a silent no-op. -/
theorem registerVideoFrameCallback_no_observer_witness :
    remoteObsSession.local_video_observer = none
  ∧ registerLocalVideoFrameCallbackI420 remoteObsSession 7 = remoteObsSession
  ∧ registerLocalVideoFrameCallbackARGB remoteObsSession 7 = remoteObsSession
  ∧ Session.init.remote_video_observer = none
  ∧ registerRemoteVideoFrameCallbackI420 Session.init 7 = Session.init
  ∧ registerRemoteVideoFrameCallbackARGB Session.init 7 = Session.init :=
  ⟨rfl,
   ((registerVideoFrameCallback_no_observer remoteObsSession 7).1 rfl).1,
   ((registerVideoFrameCallback_no_observer remoteObsSession 7).1 rfl).2,
   rfl,
   ((registerVideoFrameCallback_no_observer Session.init 7).2 rfl).1,
   ((registerVideoFrameCallback_no_observer Session.init 7).2 rfl).2⟩

/-- C5: for an id with no entry in the registry,
`sendDataChannelMessage` returns false, makes no engine call and
leaves the session state unchanged. -/
theorem sendDataChannelMessage_unknown_id
    (engineSend : DataChannelObserver → List Nat → Bool) (s : Session)
    (id : Int) (data : List Nat)
    (h : lookupId s.data_channel_from_id id = none) :
    sendDataChannelMessage engineSend s id data = (false, s, []) := by
  simp [sendDataChannelMessage, h]

/-- Witness for C5: id 9 was never added to the sample session. -/
theorem sendDataChannelMessage_unknown_id_witness :
    lookupId chatSession.data_channel_from_id 9 = none
  ∧ sendDataChannelMessage (fun _ _ => true) chatSession 9 [1, 2] = (false, chatSession, []) :=
  ⟨by decide, sendDataChannelMessage_unknown_id (fun _ _ => true) chatSession 9 [1, 2] (by decide)⟩

/-- C2: for an id already present in the registry, `addDataChannel`
returns false and the session (in particular both indexes) is exactly
the state before the call. -/
theorem addDataChannel_duplicate_id (s : Session) (id : Int) (label : String)
    (ordered reliable : Bool) (mcb bcb scb : Nat)
    (h : (lookupId s.data_channel_from_id id).isSome) :
    addDataChannel s id label ordered reliable mcb bcb scb = (false, s) := by
  simp [addDataChannel, h]

/-- Witness for C2: the scenario of the spec, adding id 5 twice. -/
theorem addDataChannel_duplicate_id_witness :
    (lookupId chatSession.data_channel_from_id 5).isSome
  ∧ addDataChannel chatSession 5 "other" true true 4 5 6 = (false, chatSession) :=
  ⟨by decide, addDataChannel_duplicate_id chatSession 5 "other" true true 4 5 6 (by decide)⟩

/-- C1: whenever `addDataChannel(id, ...)` succeeds, looking the id up
in the registry returns exactly the entry created by that call, and
after a subsequent `removeDataChannel(id)` the id lookup fails. -/
theorem addDataChannel_lookup_remove (s : Session) (id : Int) (label : String)
    (ordered reliable : Bool) (mcb bcb scb : Nat)
    (h : (addDataChannel s id label ordered reliable mcb bcb scb).1 = true) :
    lookupId (addDataChannel s id label ordered reliable mcb bcb scb).2.data_channel_from_id id
      = some ⟨id, label, ordered, reliable, mcb, bcb, scb⟩
  ∧ lookupId (removeDataChannelById
        (addDataChannel s id label ordered reliable mcb bcb scb).2 id).2.data_channel_from_id id
      = none := by
  by_cases hdup : (lookupId s.data_channel_from_id id).isSome
  · simp [addDataChannel, hdup] at h
  · refine ⟨?_, ?_⟩
    · simpa [addDataChannel, hdup] using
        lookupId_cons_self s.data_channel_from_id id
          ⟨id, label, ordered, reliable, mcb, bcb, scb⟩
    · simpa [addDataChannel, hdup, removeDataChannelById] using
        lookupId_filter_ne
          ((id, ⟨id, label, ordered, reliable, mcb, bcb, scb⟩) :: s.data_channel_from_id) id

/-- Witness for C1: adding id 5 to the fresh session succeeds; the
lookup then returns the created entry and fails after removal. -/
theorem addDataChannel_lookup_remove_witness :
    (addDataChannel Session.init 5 "chat" true true 1 2 3).1 = true
  ∧ lookupId (addDataChannel Session.init 5 "chat" true true 1 2 3).2.data_channel_from_id 5
      = some ⟨5, "chat", true, true, 1, 2, 3⟩
  ∧ lookupId (removeDataChannelById
        (addDataChannel Session.init 5 "chat" true true 1 2 3).2 5).2.data_channel_from_id 5
      = none :=
  ⟨by decide,
   (addDataChannel_lookup_remove Session.init 5 "chat" true true 1 2 3 (by decide)).1,
   (addDataChannel_lookup_remove Session.init 5 "chat" true true 1 2 3 (by decide)).2⟩

/-- C9: on a well-formed registry, removal by an id with no matching
entry, and removal by a label with no matching entry, are no-ops that
do not report failure: the call returns true and the whole session is
unchanged. -/
theorem removeDataChannel_noop (s : Session) (id : Int) (label : String)
    (hinv : RegistryInv s) :
    (lookupId s.data_channel_from_id id = none →
      removeDataChannelById s id = (true, s))
  ∧ ((∀ q ∈ s.data_channel_from_label, q.1 ≠ label) →
      removeDataChannelByLabel s label = (true, s)) := by
  obtain ⟨hnodup, hid, hlab, hsync⟩ := hinv
  constructor
  · intro hnone
    have hid_filter :
        s.data_channel_from_id.filter (fun p => decide (p.1 ≠ id))
          = s.data_channel_from_id := by
      apply List.filter_eq_self.2
      intro a ha
      exact decide_eq_true ((lookupId_eq_none_iff _ _).1 hnone a ha)
    have hlab_filter :
        s.data_channel_from_label.filter (fun p => decide (p.2.id ≠ id))
          = s.data_channel_from_label := by
      apply List.filter_eq_self.2
      intro a ha
      apply decide_eq_true
      intro hcontra
      have hmem : a.2 ∈ s.data_channel_from_label.map Prod.snd :=
        List.mem_map_of_mem _ ha
      rw [hsync] at hmem
      obtain ⟨p, hp, hpe⟩ := List.mem_map.1 (List.mem_of_mem_filter hmem)
      have hp1 : p.1 = id := by rw [hid p hp, hpe, hcontra]
      exact (lookupId_eq_none_iff _ _).1 hnone p hp hp1
    simp only [removeDataChannelById, hid_filter, hlab_filter]
  · intro hnomatch
    by_cases hemp : label = ""
    · simp [removeDataChannelByLabel, hemp]
    · have hlab_filter :
          s.data_channel_from_label.filter (fun q => decide (q.1 ≠ label))
            = s.data_channel_from_label := by
        apply List.filter_eq_self.2
        intro a ha
        exact decide_eq_true (hnomatch a ha)
      have hid_filter :
          s.data_channel_from_id.filter (fun p => decide (p.2.label ≠ label))
            = s.data_channel_from_id := by
        apply List.filter_eq_self.2
        intro p hp
        apply decide_eq_true
        intro hcontra
        have hne : p.2.label ≠ "" := by rw [hcontra]; exact hemp
        have hmem : p.2 ∈ (s.data_channel_from_id.map Prod.snd).filter
            (fun e => decide (e.label ≠ "")) :=
          List.mem_filter.2 ⟨List.mem_map_of_mem _ hp, decide_eq_true hne⟩
        rw [← hsync] at hmem
        obtain ⟨q, hq, hqe⟩ := List.mem_map.1 hmem
        have hq1 : q.1 = label := by rw [hlab q hq, hqe, hcontra]
        exact hnomatch q hq hq1
      simp only [removeDataChannelByLabel, if_neg hemp, hid_filter, hlab_filter]

/-- Witness for C9: neither id 9 nor label "news" matches anything in
the sample session, and both removals return success unchanged. -/
theorem removeDataChannel_noop_witness :
    RegistryInv chatSession
  ∧ removeDataChannelById chatSession 9 = (true, chatSession)
  ∧ removeDataChannelByLabel chatSession "news" = (true, chatSession) :=
  ⟨by decide,
   (removeDataChannel_noop chatSession 9 "news" (by decide)).1 (by decide),
   (removeDataChannel_noop chatSession 9 "news" (by decide)).2 (by decide)⟩

/-- C8: `addLocalVideoTrack` returns false, with the stored track and
sender (indeed the whole session) unchanged, when a local video track
is already attached or the engine connection handle is not set; on
success it stores the track and the sender the engine returns.
`addLocalAudioTrack` is symmetric for audio. -/
theorem addLocalTrack_spec (engineSender : Nat → Nat) (s : Session) (track : Nat) :
    ((s.local_video_track.isSome ∨ s.peer = none) →
      addLocalVideoTrack engineSender s track = (false, s))
  ∧ (s.local_video_track = none → ∀ h, s.peer = some h →
      addLocalVideoTrack engineSender s track
        = (true, { s with local_video_track := some track
                          local_video_sender := some (engineSender track) }))
  ∧ ((s.local_audio_track.isSome ∨ s.peer = none) →
      addLocalAudioTrack engineSender s track = (false, s))
  ∧ (s.local_audio_track = none → ∀ h, s.peer = some h →
      addLocalAudioTrack engineSender s track
        = (true, { s with local_audio_track := some track
                          local_audio_sender := some (engineSender track) })) := by
  refine ⟨?_, ?_, ?_, ?_⟩
  · intro hfail
    by_cases hv : s.local_video_track.isSome
    · simp [addLocalVideoTrack, hv]
    · rcases hfail with hv2 | hp
      · exact absurd hv2 hv
      · simp [addLocalVideoTrack, hv, hp]
  · intro hv h hp
    simp [addLocalVideoTrack, hv, hp]
  · intro hfail
    by_cases ha : s.local_audio_track.isSome
    · simp [addLocalAudioTrack, ha]
    · rcases hfail with ha2 | hp
      · exact absurd ha2 ha
      · simp [addLocalAudioTrack, ha, hp]
  · intro ha h hp
    simp [addLocalAudioTrack, ha, hp]

/-- A session whose engine connection handle has been set. -/
def connectedSession : Session := { Session.init with peer := some 1 }

/-- Witness for C8: attaching fails on the fresh session (no engine
handle) and succeeds, storing track and sender, once the handle is
set. -/
theorem addLocalTrack_spec_witness :
    addLocalVideoTrack (fun t => t + 100) Session.init 42 = (false, Session.init)
  ∧ addLocalVideoTrack (fun t => t + 100) connectedSession 42
      = (true, { connectedSession with local_video_track := some 42
                                       local_video_sender := some 142 }) :=
  ⟨(addLocalTrack_spec (fun t => t + 100) Session.init 42).1 (Or.inr rfl),
   (addLocalTrack_spec (fun t => t + 100) connectedSession 42).2.1 rfl 1 rfl⟩

theorem length_filter_ne_add {α : Type} (l : List α) (f : α → String) (label : String) :
    (l.filter (fun a => decide (f a ≠ label))).length
      + (l.filter (fun a => decide (f a = label))).length = l.length := by
  induction l with
  | nil => rfl
  | cons a t ih =>
    by_cases h : f a = label <;> simp [List.filter_cons, h] at ih ⊢ <;> omega

/-- Inserting a fresh id into both indexes preserves the registry
invariant. -/
theorem registryInv_insert (s : Session) (e : DataChannelObserver)
    (hinv : RegistryInv s)
    (hnone : lookupId s.data_channel_from_id e.id = none) :
    RegistryInv
      { s with
        data_channel_from_id := (e.id, e) :: s.data_channel_from_id
        data_channel_from_label :=
          if e.label = "" then s.data_channel_from_label
          else (e.label, e) :: s.data_channel_from_label } := by
  obtain ⟨hnodup, hid, hlab, hsync⟩ := hinv
  refine ⟨?_, ?_, ?_, ?_⟩
  · refine List.nodup_cons.2 ⟨?_, hnodup⟩
    intro hmem
    obtain ⟨p, hp, hpe⟩ := List.mem_map.1 hmem
    exact (lookupId_eq_none_iff _ _).1 hnone p hp hpe
  · intro p hp
    rcases List.mem_cons.1 hp with h | h
    · rw [h]
    · exact hid p h
  · intro q hq
    by_cases hemp : e.label = ""
    · rw [if_pos hemp] at hq
      exact hlab q hq
    · rw [if_neg hemp] at hq
      rcases List.mem_cons.1 hq with h | h
      · rw [h]
      · exact hlab q h
  · by_cases hemp : e.label = ""
    · simp [hemp, List.filter_cons, hsync]
    · simp [hemp, List.filter_cons, hsync]

/-- Filtering both indexes by the same predicate on the entry
preserves the registry invariant. -/
theorem registryInv_filter (s : Session) (q : DataChannelObserver → Bool)
    (hinv : RegistryInv s) :
    RegistryInv
      { s with
        data_channel_from_id := s.data_channel_from_id.filter (fun p => q p.2)
        data_channel_from_label :=
          s.data_channel_from_label.filter (fun p => q p.2) } := by
  obtain ⟨hnodup, hid, hlab, hsync⟩ := hinv
  refine ⟨?_, ?_, ?_, ?_⟩
  · exact hnodup.sublist ((List.filter_sublist _).map Prod.fst)
  · intro p hp
    exact hid p (List.mem_of_mem_filter hp)
  · intro p hp
    exact hlab p (List.mem_of_mem_filter hp)
  · rw [map_snd_filter_snd, map_snd_filter_snd, hsync, List.filter_filter,
      List.filter_filter]
    exact List.filter_congr (fun a _ => Bool.and_comm _ _)

/-- C3: for a non-empty label on a well-formed registry,
`removeDataChannel(label)` removes from each index exactly the N
entries carrying that label (N counted in the id index), while every
entry with a different label stays in both indexes. -/
theorem removeDataChannelByLabel_removes_exactly (s : Session) (label : String)
    (hne : label ≠ "") (hinv : RegistryInv s) :
    ((removeDataChannelByLabel s label).2.data_channel_from_id.length
        + (s.data_channel_from_id.filter (fun p => decide (p.2.label = label))).length
      = s.data_channel_from_id.length)
  ∧ ((removeDataChannelByLabel s label).2.data_channel_from_label.length
        + (s.data_channel_from_id.filter (fun p => decide (p.2.label = label))).length
      = s.data_channel_from_label.length)
  ∧ (∀ p ∈ (removeDataChannelByLabel s label).2.data_channel_from_id,
      p ∈ s.data_channel_from_id ∧ p.2.label ≠ label)
  ∧ (∀ p ∈ s.data_channel_from_id, p.2.label ≠ label →
      p ∈ (removeDataChannelByLabel s label).2.data_channel_from_id)
  ∧ (∀ q ∈ (removeDataChannelByLabel s label).2.data_channel_from_label,
      q ∈ s.data_channel_from_label ∧ q.2.label ≠ label)
  ∧ (∀ q ∈ s.data_channel_from_label, q.2.label ≠ label →
      q ∈ (removeDataChannelByLabel s label).2.data_channel_from_label) := by
  obtain ⟨hnodup, hid, hlab, hsync⟩ := hinv
  have hstate : (removeDataChannelByLabel s label).2.data_channel_from_id
      = s.data_channel_from_id.filter (fun p => decide (p.2.label ≠ label)) := by
    simp only [removeDataChannelByLabel, if_neg hne]
  have hstatel : (removeDataChannelByLabel s label).2.data_channel_from_label
      = s.data_channel_from_label.filter (fun q => decide (q.1 ≠ label)) := by
    simp only [removeDataChannelByLabel, if_neg hne]
  have hkey : s.data_channel_from_label.filter (fun q => decide (q.1 ≠ label))
      = s.data_channel_from_label.filter (fun q => decide (q.2.label ≠ label)) :=
    List.filter_congr (fun q hq => by rw [hlab q hq])
  have hcount :
      (s.data_channel_from_label.filter (fun q => decide (q.2.label = label))).length
        = (s.data_channel_from_id.filter (fun p => decide (p.2.label = label))).length := by
    have h1 := congrArg List.length
      (map_snd_filter_snd s.data_channel_from_label (fun e => decide (e.label = label)))
    rw [List.length_map] at h1
    have h4 := congrArg List.length
      (map_snd_filter_snd s.data_channel_from_id (fun e => decide (e.label = label)))
    rw [List.length_map] at h4
    have h3 : ∀ e ∈ s.data_channel_from_id.map Prod.snd,
        (decide (e.label = label) && decide (e.label ≠ "")) = decide (e.label = label) := by
      intro e he
      by_cases hh : e.label = label
      · simp [hh, hne]
      · simp [hh]
    rw [h1, hsync, List.filter_filter, List.filter_congr h3, h4]
  refine ⟨?_, ?_, ?_, ?_, ?_, ?_⟩
  · rw [hstate]
    exact length_filter_ne_add s.data_channel_from_id (fun p => p.2.label) label
  · rw [hstatel, hkey, ← hcount]
    exact length_filter_ne_add s.data_channel_from_label (fun q => q.2.label) label
  · rw [hstate]
    intro p hp
    exact ⟨List.mem_of_mem_filter hp, of_decide_eq_true (List.mem_filter.1 hp).2⟩
  · rw [hstate]
    intro p hp h
    exact List.mem_filter.2 ⟨hp, decide_eq_true h⟩
  · rw [hstatel]
    intro q hq
    have h1 := List.mem_of_mem_filter hq
    have h2 := of_decide_eq_true (List.mem_filter.1 hq).2
    refine ⟨h1, ?_⟩
    rw [← hlab q h1]
    exact h2
  · rw [hstatel]
    intro q hq h
    refine List.mem_filter.2 ⟨hq, decide_eq_true ?_⟩
    rw [hlab q hq]
    exact h

/-- A second channel with label "chat" (id 6). -/
def chatObs2 : DataChannelObserver := ⟨6, "chat", true, false, 4, 5, 6⟩

/-- A channel with label "other" (id 7). -/
def otherObs : DataChannelObserver := ⟨7, "other", false, true, 7, 8, 9⟩

/-- A session with two "chat" channels and one "other" channel. -/
def multiSession : Session :=
  { Session.init with
    data_channel_from_id := [(5, chatObs), (6, chatObs2), (7, otherObs)]
    data_channel_from_label :=
      [("chat", chatObs), ("chat", chatObs2), ("other", otherObs)] }

/-- Witness for C3: removing label "chat" (shared by two channels)
shrinks both indexes by exactly two, and the "other" entry remains in
both. -/
theorem removeDataChannelByLabel_removes_exactly_witness :
    ("chat" : String) ≠ ""
  ∧ RegistryInv multiSession
  ∧ ((removeDataChannelByLabel multiSession "chat").2.data_channel_from_id.length
        + (multiSession.data_channel_from_id.filter
            (fun p => decide (p.2.label = "chat"))).length
      = multiSession.data_channel_from_id.length)
  ∧ (7, otherObs) ∈ (removeDataChannelByLabel multiSession "chat").2.data_channel_from_id :=
  ⟨by decide, by decide,
   (removeDataChannelByLabel_removes_exactly multiSession "chat" (by decide) (by decide)).1,
   (removeDataChannelByLabel_removes_exactly multiSession "chat" (by decide)
      (by decide)).2.2.2.1 (7, otherObs) (by decide) (by decide)⟩

/-- C4: every data-channel registry operation — `addDataChannel`,
`removeDataChannel` by id, `removeDataChannel` by label, and the
remote-open `OnDataChannel` handler — preserves the registry
invariant: unique ids in the id index, the label index holding exactly
the registered entries with non-empty label, and both indexes over the
same set of entries. -/
theorem registry_invariant_preserved (s : Session) (hinv : RegistryInv s) :
    (∀ id label ordered reliable mcb bcb scb,
        RegistryInv (addDataChannel s id label ordered reliable mcb bcb scb).2)
  ∧ (∀ id, RegistryInv (removeDataChannelById s id).2)
  ∧ (∀ label, RegistryInv (removeDataChannelByLabel s label).2)
  ∧ (∀ e, RegistryInv (onDataChannel s e)) := by
  obtain ⟨hnodup, hid, hlab, hsync⟩ := hinv
  refine ⟨?_, ?_, ?_, ?_⟩
  · intro id label ordered reliable mcb bcb scb
    by_cases hdup : (lookupId s.data_channel_from_id id).isSome
    · simp only [addDataChannel, if_pos hdup]
      exact ⟨hnodup, hid, hlab, hsync⟩
    · have hnone : lookupId s.data_channel_from_id id = none :=
        Option.not_isSome_iff_eq_none.1 hdup
      have hstate : (addDataChannel s id label ordered reliable mcb bcb scb).2
          = { s with
              data_channel_from_id :=
                (id, ⟨id, label, ordered, reliable, mcb, bcb, scb⟩)
                  :: s.data_channel_from_id
              data_channel_from_label :=
                if label = "" then s.data_channel_from_label
                else (label, ⟨id, label, ordered, reliable, mcb, bcb, scb⟩)
                  :: s.data_channel_from_label } := by
        simp only [addDataChannel, if_neg hdup]
      rw [hstate]
      exact registryInv_insert s ⟨id, label, ordered, reliable, mcb, bcb, scb⟩
        ⟨hnodup, hid, hlab, hsync⟩ hnone
  · intro id
    have hbridge : s.data_channel_from_id.filter (fun p => decide (p.1 ≠ id))
        = s.data_channel_from_id.filter (fun p => decide (p.2.id ≠ id)) :=
      List.filter_congr (fun p hp => by rw [hid p hp])
    have hstate : (removeDataChannelById s id).2
        = { s with
            data_channel_from_id :=
              s.data_channel_from_id.filter (fun p => decide (p.2.id ≠ id))
            data_channel_from_label :=
              s.data_channel_from_label.filter (fun p => decide (p.2.id ≠ id)) } := by
      simp only [removeDataChannelById]
      rw [hbridge]
    rw [hstate]
    exact registryInv_filter s (fun e => decide (e.id ≠ id)) ⟨hnodup, hid, hlab, hsync⟩
  · intro label
    by_cases hemp : label = ""
    · simp only [removeDataChannelByLabel, if_pos hemp]
      exact ⟨hnodup, hid, hlab, hsync⟩
    · have hbridge : s.data_channel_from_label.filter (fun q => decide (q.1 ≠ label))
          = s.data_channel_from_label.filter (fun q => decide (q.2.label ≠ label)) :=
        List.filter_congr (fun q hq => by rw [hlab q hq])
      have hstate : (removeDataChannelByLabel s label).2
          = { s with
              data_channel_from_id :=
                s.data_channel_from_id.filter (fun p => decide (p.2.label ≠ label))
              data_channel_from_label :=
                s.data_channel_from_label.filter
                  (fun q => decide (q.2.label ≠ label)) } := by
        simp only [removeDataChannelByLabel, if_neg hemp]
        rw [hbridge]
      rw [hstate]
      exact registryInv_filter s (fun e => decide (e.label ≠ label))
        ⟨hnodup, hid, hlab, hsync⟩
  · intro e
    by_cases hdup : (lookupId s.data_channel_from_id e.id).isSome
    · simp only [onDataChannel, if_pos hdup]
      exact ⟨hnodup, hid, hlab, hsync⟩
    · have hnone : lookupId s.data_channel_from_id e.id = none :=
        Option.not_isSome_iff_eq_none.1 hdup
      have hstate : onDataChannel s e
          = { s with
              data_channel_from_id := (e.id, e) :: s.data_channel_from_id
              data_channel_from_label :=
                if e.label = "" then s.data_channel_from_label
                else (e.label, e) :: s.data_channel_from_label } := by
        simp only [onDataChannel, if_neg hdup]
      rw [hstate]
      exact registryInv_insert s e ⟨hnodup, hid, hlab, hsync⟩ hnone

/-- Witness for C4: the invariant holds on the sample session and is
kept by a removal, an addition and a remote open. -/
theorem registry_invariant_preserved_witness :
    RegistryInv multiSession
  ∧ RegistryInv (removeDataChannelById multiSession 5).2
  ∧ RegistryInv (addDataChannel multiSession 8 "late" true true 1 1 1).2
  ∧ RegistryInv (onDataChannel multiSession ⟨9, "", true, true, 0, 0, 0⟩) :=
  ⟨by decide,
   (registry_invariant_preserved multiSession (by decide)).2.1 5,
   (registry_invariant_preserved multiSession (by decide)).1 8 "late" true true 1 1 1,
   (registry_invariant_preserved multiSession (by decide)).2.2.2 ⟨9, "", true, true, 0, 0, 0⟩⟩

end PeerConn
